import Mathlib

/-!
# Verification of the WoW recorder core (combat parser, state machine, file policy)

Shallow embedding of the repository's core logic:

* `combat_parser.py` — `CombatEvent` line parsing (timestamp split + CSV field
  decoding), event classification, `BossInfo`/`DungeonInfo` extraction and name
  sanitization, the `CombatParser` handlers, `RecordingFileManager` (rename /
  delete / collision policy) and `RecordingProcessor` (begin / finish pipelines);
* `state_manager.py` — `RecordingState`;
* `obs_client.py` — `OBSClient.start_recording`.

Machine integers are modelled as `Int`/`Nat` (the Python values involved are
small and Python integers are unbounded).  Wall-clock instants are modelled as
`Nat` tick counts.  Filesystem state is modelled as a list of file entries.
Printing/logging is ignored (it does not affect control flow or state).
-/

namespace WowRec

/-! ## Python string primitives -/

/-- The characters Python's `str.strip()` removes (ASCII whitespace).  Python
also strips some further Unicode whitespace; the repository only ever meets
ASCII log data. -/
def isPySpace (c : Char) : Bool :=
  c = ' ' || c = '\t' || c = '\n' || c = '\r' || c = '\x0b' || c = '\x0c'

/-- The double-quote character (written by code to avoid escaping). -/
def dquote : Char := Char.ofNat 34

/-- The apostrophe character. -/
def apos : Char := Char.ofNat 39

/-- `str.strip()` on a character list. -/
def pyStripList (l : List Char) : List Char :=
  ((l.dropWhile isPySpace).reverse.dropWhile isPySpace).reverse

/-- `str.strip()`. -/
def pyStrip (s : String) : String := ⟨pyStripList s.data⟩

/-- `str.upper()` restricted to ASCII (the event-type tokens compared against
are all ASCII). -/
def pyUpper (s : String) : String := ⟨s.data.map Char.toUpper⟩

/-- `str.lower()` restricted to ASCII. -/
def pyLower (s : String) : String := ⟨s.data.map Char.toLower⟩

/-- Index of the first occurrence of two consecutive spaces
(`line.find("  ")`), if any. -/
def findDoubleSpace : List Char → Option Nat
  | [] => none
  | [_] => none
  | ' ' :: ' ' :: _ => some 0
  | _ :: c :: rest => (findDoubleSpace (c :: rest)).map (· + 1)

/-- Python's `needle in haystack` on character lists. -/
def listHasSeg (hay pat : List Char) : Bool :=
  hay.tails.any (fun t => pat.isPrefixOf t)

/-- `r` occurs contiguously inside `l`. -/
def SegIn (r l : List Char) : Prop := ∃ u v, l = u ++ r ++ v

/-! ## Python `int(...)` -/

/-- Digit run with optional single underscores between digits (Python's
`int("1_000")` convention); returns the value. -/
def pyDigitsGo : List Char → Nat → Option Nat
  | [], acc => some acc
  | c :: cs, acc =>
    if c.isDigit then pyDigitsGo cs (acc * 10 + (c.toNat - '0'.toNat))
    else if c = '_' then
      match cs with
      | [] => none
      | d :: cs' =>
        if d.isDigit then pyDigitsGo cs' (acc * 10 + (d.toNat - '0'.toNat))
        else none
    else none

/-- Nonempty digit run. -/
def pyDigits : List Char → Option Nat
  | [] => none
  | c :: cs => if c.isDigit then pyDigitsGo cs (c.toNat - '0'.toNat) else none

/-- Python `int(s)`: optional surrounding whitespace, optional sign, decimal
digits (ASCII; Python additionally accepts Unicode decimal digits, which the
log format never produces); `none` models `ValueError`. -/
def pyInt (s : String) : Option Int :=
  match pyStripList s.data with
  | '-' :: rest => (pyDigits rest).map (fun n => -(n : Int))
  | '+' :: rest => (pyDigits rest).map (fun n => (n : Int))
  | l => (pyDigits l).map (fun n => (n : Int))

/-! ## CSV record decoding

`CombatEvent._parse_line` feeds the data suffix to
`csv.reader(io.StringIO(data), quotechar='"', delimiter=',')` and takes the
first record.  The machine below reproduces Python's `csv` behaviour for a
single-line record with the default dialect (`doublequote=True`,
`skipinitialspace=False`, `strict=False`): a quote opens a quoted section only
at field start (or directly after a quoted section); inside a quoted section a
doubled quote is a literal quote; material after a closing quote is appended to
the same field.  Combat-log lines contain no embedded newlines. -/

inductive CsvMode where
  | fieldStart | unquoted | quoted | postQuote
deriving DecidableEq, Repr

def csvRun : List Char → CsvMode → List Char → List String → List String
  | [], _, acc, out => out ++ [⟨acc.reverse⟩]
  | c :: cs, .fieldStart, _, out =>
    if c = ',' then csvRun cs .fieldStart [] (out ++ [""])
    else if c = dquote then csvRun cs .quoted [] out
    else csvRun cs .unquoted [c] out
  | c :: cs, .unquoted, acc, out =>
    if c = ',' then csvRun cs .fieldStart [] (out ++ [⟨acc.reverse⟩])
    else csvRun cs .unquoted (c :: acc) out
  | c :: cs, .quoted, acc, out =>
    if c = dquote then
      match cs with
      | c' :: cs' =>
        if c' = dquote then csvRun cs' .quoted (dquote :: acc) out
        else csvRun (c' :: cs') .postQuote acc out
      | [] => csvRun [] .postQuote acc out
    else csvRun cs .quoted (c :: acc) out
  | c :: cs, .postQuote, acc, out =>
    if c = ',' then csvRun cs .fieldStart [] (out ++ [⟨acc.reverse⟩])
    else if c = dquote then csvRun cs .quoted acc out
    else csvRun cs .postQuote (c :: acc) out

/-- The first CSV record of a non-empty data string. -/
def csvFirstRecord (data : List Char) : List String :=
  csvRun data .fieldStart [] []

/-! ## `CombatEvent` (combat_parser.py lines 61–200) -/

/-- Per-field cleanup in `_parse_line`: `field.strip()`, then one layer of
surrounding double quotes removed when the stripped field both starts and ends
with a quote. -/
def cleanField (s : String) : String :=
  match pyStripList s.data with
  | [] => ""
  | c :: cs =>
    if c = dquote ∧ (c :: cs).getLast? = some dquote then ⟨cs.dropLast⟩
    else ⟨c :: cs⟩

structure CombatEvent where
  timestamp : String
  event_type : String
  fields : List String
deriving DecidableEq, Repr

/-- Splitting the stripped raw line into a timestamp prefix and data suffix:
at the first run of two spaces when present, otherwise just after the second
single space; `none` models the early `return` (no fields parsed). -/
def splitTsData (l : List Char) : Option (List Char × List Char) :=
  match findDoubleSpace l with
  | some i => some (pyStripList (l.take i), pyStripList (l.drop (i + 2)))
  | none =>
    match l.findIdx? (· = ' ') with
    | none => none
    | some f =>
      match (l.drop (f + 1)).findIdx? (· = ' ') with
      | none => none
      | some g' =>
        let g := f + 1 + g'
        some (pyStripList (l.take g), pyStripList (l.drop (g + 1)))

/-- `CombatEvent.__init__` / `_parse_line`.  Every failure path inside the
Python constructor is caught (or returns early), so construction is total:
a line that cannot be split or holds no CSV record yields empty
`event_type`/`fields`. -/
def parseLine (raw : String) : CombatEvent :=
  let l := pyStripList raw.data
  if l = [] then ⟨"", "", []⟩
  else
    match splitTsData l with
    | none => ⟨"", "", []⟩
    | some (ts, data) =>
      if data = [] then ⟨⟨ts⟩, "", []⟩
      else
        let fields := (csvFirstRecord data).map cleanField
        let etype := match fields with
          | [] => ""
          | f0 :: _ => pyUpper f0
        ⟨⟨ts⟩, etype, fields⟩

def CombatEvent.is_valid (ev : CombatEvent) : Bool :=
  ev.event_type ≠ "" && ev.fields ≠ []

def CombatEvent.is_encounter_start (ev : CombatEvent) : Bool :=
  ev.event_type = "ENCOUNTER_START"

def CombatEvent.is_encounter_end (ev : CombatEvent) : Bool :=
  ev.event_type = "ENCOUNTER_END"

def CombatEvent.is_dungeon_start (ev : CombatEvent) : Bool :=
  ev.event_type = "CHALLENGE_MODE_START"

def CombatEvent.is_dungeon_end (ev : CombatEvent) : Bool :=
  ev.event_type = "CHALLENGE_MODE_END"

def CombatEvent.is_zone_change (ev : CombatEvent) : Bool :=
  ev.event_type = "ZONE_CHANGE"

/-! ## `BossInfo` / `DungeonInfo` (combat_parser.py lines 21–58) -/

structure BossInfo where
  boss_id : Int
  name : String
  difficulty_id : Int
  instance_id : Int
  timestamp : String := ""
deriving DecidableEq, Repr

structure DungeonInfo where
  dungeon_id : Int
  name : String
  dungeon_level : Int
  timestamp : String := ""
deriving DecidableEq, Repr

/-- The character class removed by `re.sub(r'[<>:"/\\|?*]', '', name)`. -/
def badChars : List Char := ['<', '>', ':', dquote, '/', '\\', '|', '?', '*']

/-- `BossInfo.formatted_name`: strip path-hostile characters, spaces to
underscores, drop apostrophes and commas, then `strip()`. -/
def formattedNameList (l : List Char) : List Char :=
  let c1 := l.filter (fun c => !(badChars.contains c))
  let c2 := c1.map (fun c => if c = ' ' then '_' else c)
  let c3 := c2.filter (fun c => c != apos)
  let c4 := c3.filter (fun c => c != ',')
  pyStripList c4

def formattedName (name : String) : String := ⟨formattedNameList name.data⟩

/-- `DungeonInfo.formatted_name`: as `BossInfo.formatted_name`, plus a second
(no-op) colon removal and hyphens to underscores. -/
def formattedDungeonName (name : String) : String :=
  let c4 := formattedNameList name.data
  -- `.replace(":", "")` after the regex already removed colons: no-op kept for
  -- fidelity; the regex filter above removed every ':'.
  let c5 := c4.filter (fun c => c != ':')
  let c6 := c5.map (fun c => if c = '-' then '_' else c)
  -- final `.strip()` of the Python chain is the one inside `formattedNameList`;
  -- the Python code strips once, after all replacements.  Hyphen/underscore
  -- substitution does not produce whitespace, so stripping before or after
  -- the last two steps is the same; we re-strip for exactness.
  ⟨pyStripList c6⟩

/-- `CombatEvent.get_boss_info` (lines 146–160): `ENCOUNTER_START` with at
least 6 fields, integer fields 1, 3 and 5; `ValueError` yields `None`. -/
def CombatEvent.get_boss_info (ev : CombatEvent) : Option BossInfo :=
  if !ev.is_encounter_start || ev.fields.length < 6 then none
  else
    match pyInt (ev.fields.getD 1 ""), pyInt (ev.fields.getD 3 ""),
        pyInt (ev.fields.getD 5 "") with
    | some bid, some did, some iid =>
      some ⟨bid, ev.fields.getD 2 "", did, iid, ev.timestamp⟩
    | _, _, _ => none

/-- `CombatEvent.get_dungeon_info` (lines 162–193): `CHALLENGE_MODE_START`
with at least 5 fields, integer fields 2 and 4. -/
def CombatEvent.get_dungeon_info (ev : CombatEvent) : Option DungeonInfo :=
  if !ev.is_dungeon_start then none
  else if ev.fields.length < 5 then none
  else
    match pyInt (ev.fields.getD 2 ""), pyInt (ev.fields.getD 4 "") with
    | some iid, some lvl =>
      some ⟨iid, ev.fields.getD 1 "", lvl, ev.timestamp⟩
    | _, _ => none

/-! ## `RecordingState` (state_manager.py)

The class as shipped in `src/state_manager.py`: an *encounter-only* state
holder.  Its instances carry exactly the attributes assigned in `_reset_all`
(all of them re-assigned, never deleted, by `start_encounter` and
`start_recording`); the class object additionally defines the methods and
properties listed in `RecordingState.classAttrNames`.  No dungeon-related
attribute or method exists on it. -/

structure RecordingState where
  recording : Bool
  recording_start_time : Option Nat
  encounter_active : Bool
  boss_id : Option Int
  boss_name : Option String
  difficulty_id : Option Int
  instance_id : Option Int
  encounter_start_time : Option Nat
deriving DecidableEq, Repr

/-- `_reset_all` (lines 55–67): every state variable back to its default. -/
def RecordingState.reset_all : RecordingState :=
  ⟨false, none, false, none, none, none, none, none⟩

/-- `__init__` (lines 17–19) simply calls `_reset_all`. -/
def RecordingState.mkFresh : RecordingState := RecordingState.reset_all

/-- `reset` (lines 50–53): logs and calls `_reset_all`. -/
def RecordingState.reset (_ : RecordingState) : RecordingState :=
  RecordingState.reset_all

/-- `start_encounter` (lines 25–42); `time.time()` is passed in as `now`. -/
def RecordingState.start_encounter (s : RecordingState) (bid : Int)
    (bname : String) (did iid : Int) (now : Nat) : RecordingState :=
  { s with encounter_active := true, boss_id := some bid,
           boss_name := some bname, difficulty_id := some did,
           instance_id := some iid, encounter_start_time := some now }

/-- `start_recording` (lines 44–48). -/
def RecordingState.start_recording (s : RecordingState) (now : Nat) :
    RecordingState :=
  { s with recording := true, recording_start_time := some now }

/-- Property `is_recording` (lines 73–76). -/
def RecordingState.is_recording (s : RecordingState) : Bool :=
  s.recording && s.encounter_active

/-- The instance attributes a `RecordingState` object ever has (assigned in
`_reset_all`, re-assigned by `start_encounter`/`start_recording`). -/
def RecordingState.instAttrNames : List String :=
  ["recording", "recording_start_time", "encounter_active", "boss_id",
   "boss_name", "difficulty_id", "instance_id", "encounter_start_time"]

/-- The attributes provided by the class object (methods and properties
defined in `state_manager.py`). -/
def RecordingState.classAttrNames : List String :=
  ["start_encounter", "start_recording", "reset", "_reset_all",
   "is_recording", "has_boss_info", "get_encounter_duration",
   "get_recording_duration", "summary"]

/-- Python `hasattr` on a `RecordingState` instance. -/
def RecordingState.pyHasattr (a : String) : Bool :=
  RecordingState.instAttrNames.contains a ||
    RecordingState.classAttrNames.contains a

/-- Python exceptions surfacing in the modelled paths. -/
inductive PyErr where
  /-- `AttributeError` for the named attribute. -/
  | attributeError (attr : String)
  /-- `ConnectionError("Not connected to OBS")` from `obs_client.py`. -/
  | connectionError
  /-- the re-raised exception of a failed OBS websocket request. -/
  | obsRequestError
deriving DecidableEq, Repr

/-- Attribute read on a `RecordingState` instance, for the Boolean-valued
attributes the ingestion path queries.  An attribute the object lacks raises
`AttributeError`; an existing attribute of a different type is irrelevant to
the modelled paths (marker value `false`, never reached). -/
def RecordingState.getBoolAttr (s : RecordingState) (a : String) :
    Except PyErr Bool :=
  if a = "recording" then .ok s.recording
  else if a = "encounter_active" then .ok s.encounter_active
  else if RecordingState.pyHasattr a then .ok false
  else .error (.attributeError a)

/-! ## Configuration (config_manager.py)

`ConfigManager` resolves settings from an INI file; the core reads them
through properties.  The fields below are the resolved values the modelled
code paths consume.  `record_mplus` and `dungeon_timeout_seconds` are
**modelled from the spec** (§6 configuration surface: "Mythic+ recording
toggle", "idle-timeout threshold"): `combat_parser.py` reads
`config.RECORD_MPLUS` and `config.DUNGEON_TIMEOUT_SECONDS`, but the
`ConfigManager` shipped under `src/` does not define those properties — they
belong to the M+-capable configuration variant missing from `src/`. -/

structure Config where
  enabled_difficulties : List Int
  record_mplus : Bool
  min_recording_duration : Nat
  delete_short_recordings : Bool
  max_rename_attempts : Nat
  recording_extension : String
  dungeon_timeout_seconds : Nat
  boss_name_overrides : List (Int × String)
deriving DecidableEq, Repr

/-- `ConfigManager.is_difficulty_enabled`. -/
def Config.is_difficulty_enabled (cfg : Config) (d : Int) : Bool :=
  cfg.enabled_difficulties.contains d

/-- The default configuration: `record_normal/heroic/mythic = true`,
`record_lfr/other = false` resolves to difficulty ids
{1, 14} ∪ {2, 15} ∪ {3, 16, 23}; `min_recording_duration = 5`,
`delete_short_recordings = true`, `max_rename_attempts = 10`,
extension `.mp4`.  (`record_mplus`/`dungeon_timeout_seconds` are given
spec-level defaults: enabled, 300s.) -/
def defaultConfig : Config :=
  { enabled_difficulties := [1, 14, 2, 15, 3, 16, 23]
    record_mplus := true
    min_recording_duration := 5
    delete_short_recordings := true
    max_rename_attempts := 10
    recording_extension := ".mp4"
    dungeon_timeout_seconds := 300
    boss_name_overrides := [] }

/-! ## `OBSClient.start_recording` (obs_client.py lines 37–58)

The method body: raise `ConnectionError` when not connected; otherwise query
the record status; if a recording is already active, `return` (value `None`);
otherwise `start_record()` and fall off the end (value `None`); any exception
in the `try` block is re-raised.  In particular **every successful path
returns `None`**. -/

structure ObsEnv where
  /-- whether `self.ws` is set (connected). -/
  connected : Bool
  /-- `get_record_status().record_active`. -/
  record_active : Bool
  /-- whether the `start_record` request goes through. -/
  start_ok : Bool
deriving DecidableEq, Repr

/-- `None` as a value, to make the returned value explicit. -/
inductive PyNone where
  | none
deriving DecidableEq, Repr

/-- Python truthiness of `None`. -/
def PyNone.truthy : PyNone → Bool := fun _ => false

def obsStartRecording (env : ObsEnv) : Except PyErr PyNone :=
  if !env.connected then .error .connectionError
  else if env.record_active then .ok .none
  else if env.start_ok then .ok .none
  else .error .obsRequestError

/-! ## `RecordingProcessor.process_encounter_start` (combat_parser.py 472–487)

`if not self.obs.start_recording(): ... return False` tests the truthiness of
the value `start_recording` returned. -/

def process_encounter_start (cfg : Config) (env : ObsEnv) (bi : BossInfo) :
    Except PyErr Bool :=
  if !cfg.is_difficulty_enabled bi.difficulty_id then .ok false
  else
    match obsStartRecording env with
    | .error e => .error e
    | .ok v => if !v.truthy then .ok false else .ok true

/-- `CombatParser._process_encounter_start_thread` (lines 905–909), run as a
daemon thread; sequentialized here.  `state.start_recording()` is called only
when the processor reported success; an exception escaping the processor kills
the thread, likewise leaving the state untouched. -/
def process_encounter_start_thread (cfg : Config) (env : ObsEnv)
    (bi : BossInfo) (now : Nat) (s : RecordingState) : RecordingState :=
  match process_encounter_start cfg env bi with
  | .ok true => s.start_recording now
  | _ => s

/-! ## `CombatParser._handle_encounter_start` (combat_parser.py 766–807)

State-relevant effect of the handler over the `RecordingState` shipped in
`src/` (the handler itself touches no dungeon attribute).  The begin thread is
sequentialized immediately after `start_encounter`, as the spec's
single-writer discipline prescribes. -/

def handle_encounter_start (cfg : Config) (env : ObsEnv) (now : Nat)
    (s : RecordingState) (ev : CombatEvent) : RecordingState :=
  if s.is_recording then s
  else
    match ev.get_boss_info with
    | none => s
    | some bi =>
      let bi := match cfg.boss_name_overrides.lookup bi.boss_id with
        | some n => { bi with name := n }
        | none => bi
      let s := s.start_encounter bi.boss_id bi.name bi.difficulty_id
        bi.instance_id now
      process_encounter_start_thread cfg env bi now s

/-- `CombatParser._handle_encounter_end` (lines 809–864), state-relevant
effect: nothing when no encounter is active, otherwise `state.reset()` (the
end thread never writes the state). -/
def handle_encounter_end (s : RecordingState) (_ev : CombatEvent) :
    RecordingState :=
  if !s.encounter_active then s else s.reset

/-! ## `CombatParser.process_line` (combat_parser.py 613–634)

over the `RecordingState` imported from `state_manager.py` (line 17 of
combat_parser.py: `from state_manager import RecordingState`).  After the
validity check the very first statement is `if self.state.dungeon_active:` —
an attribute read on the state object.  Dungeon-event handlers likewise start
by reading `self.state.dungeon_active`.  Exceptions propagate to the caller of
`process_line`. -/

def handle_dungeon_start_src (s : RecordingState) (_ev : CombatEvent) :
    Except PyErr RecordingState := do
  let dact ← s.getBoolAttr "dungeon_active"
  -- unreachable beyond this point with the shipped class
  if dact then return s else return s

def handle_dungeon_end_src (s : RecordingState) (_ev : CombatEvent) :
    Except PyErr RecordingState := do
  let dact ← s.getBoolAttr "dungeon_active"
  if dact then return s else return s

def handle_zone_change_src (s : RecordingState) (_ev : CombatEvent) :
    Except PyErr RecordingState := do
  let dact ← s.getBoolAttr "dungeon_active"
  if dact then return s else return s

def process_line (cfg : Config) (env : ObsEnv) (now : Nat)
    (s : RecordingState) (line : String) : Except PyErr RecordingState := do
  let ev := parseLine line
  if !ev.is_valid then return s
  -- `if self.state.dungeon_active: self.state.update_activity()`
  let dact ← s.getBoolAttr "dungeon_active"
  let s ← if dact then
      -- `update_activity` is also absent from the shipped class
      match (.error (.attributeError "update_activity") :
          Except PyErr RecordingState) with
      | .error e => .error e
      | .ok s' => .ok s'
    else pure s
  if ev.is_dungeon_start then handle_dungeon_start_src s ev
  else if ev.is_dungeon_end then handle_dungeon_end_src s ev
  else if ev.is_zone_change then handle_zone_change_src s ev
  else if ev.is_encounter_start then
    return handle_encounter_start cfg env now s ev
  else if ev.is_encounter_end then return handle_encounter_end s ev
  else return s

/-! ## `SessionState`: the dungeon-capable state holder

Modelled from the spec: `combat_parser.py` calls `state.dungeon_active`,
`state.start_dungeon(...)`, `state.update_activity()`,
`state.is_dungeon_idle(timeout)` and reads `state.dungeon_id/_name/_level`,
but the state-holder variant defining them is missing from `src/` (the spec's
§9 notes two historical implementations of the state holder; only the
encounter-only one ships).  Encounter fields and methods follow
`state_manager.py` verbatim; the dungeon extension follows spec §3
(`SessionState`: mode, `lastActivityAt` used only in Dungeon mode) and §4.3
(dungeon start "stores `DungeonInfo`, sets `startedAt=now` and
`lastActivityAt=now`"; transitioning to Idle "clears all entity fields
atomically").  `startedAt` is realized as `encounter_start_time` because the
shipped `get_encounter_duration` (used by `_handle_dungeon_end`) reads that
attribute. -/

structure SessionState where
  recording : Bool
  recording_start_time : Option Nat
  encounter_active : Bool
  boss_id : Option Int
  boss_name : Option String
  difficulty_id : Option Int
  instance_id : Option Int
  encounter_start_time : Option Nat
  dungeon_active : Bool
  dungeon_id : Option Int
  dungeon_name : Option String
  dungeon_level : Option Int
  last_activity : Option Nat
deriving DecidableEq, Repr

/-- The freshly initialized (Idle) session state. -/
def SessionState.idle : SessionState :=
  ⟨false, none, false, none, none, none, none, none, false, none, none, none,
   none⟩

/-- Transition to Idle: clears everything (state_manager `_reset_all`,
extended per spec §3 to the dungeon entity fields). -/
def SessionState.reset (_ : SessionState) : SessionState := SessionState.idle

def SessionState.start_encounter (s : SessionState) (bid : Int)
    (bname : String) (did iid : Int) (now : Nat) : SessionState :=
  { s with encounter_active := true, boss_id := some bid,
           boss_name := some bname, difficulty_id := some did,
           instance_id := some iid, encounter_start_time := some now }

def SessionState.start_recording (s : SessionState) (now : Nat) :
    SessionState :=
  { s with recording := true, recording_start_time := some now }

/-- `is_recording` as defined by the shipped state holder:
`self.recording and self.encounter_active`. -/
def SessionState.is_recording (s : SessionState) : Bool :=
  s.recording && s.encounter_active

/-- Modelled from the spec: `start_dungeon(id, name, level, timestamp)` —
stores the dungeon entity snapshot, sets `startedAt = now` and
`lastActivityAt = now`. -/
def SessionState.start_dungeon (s : SessionState) (did : Int) (name : String)
    (lvl : Int) (now : Nat) : SessionState :=
  { s with dungeon_active := true, dungeon_id := some did,
           dungeon_name := some name, dungeon_level := some lvl,
           encounter_start_time := some now, last_activity := some now }

/-- Modelled from the spec (§4.3): any event received in Dungeon mode
refreshes `lastActivityAt = now`. -/
def SessionState.update_activity (s : SessionState) (now : Nat) :
    SessionState :=
  { s with last_activity := some now }

/-- Modelled from the spec (§4.4): idle when `now - lastActivityAt` exceeds
the threshold (the spec's test vector `lastActivityAt = now - (threshold+1)`
breaches). -/
def SessionState.is_dungeon_idle (s : SessionState) (now threshold : Nat) :
    Bool :=
  match s.last_activity with
  | none => false
  | some t => threshold < now - t

/-! ## `CombatParser` handlers over `SessionState`

The handler bodies are those of `combat_parser.py`; the external recorder is
the spec §6 interface (`startRecording() -> ok/error`), supplied per step as a
Boolean, and begin/finish threads are sequentialized at their spawn point
(spec §5: every transition fully resolves before the next begins; finish
threads never write the state). -/

/-- The notification record a dungeon-end transition produces (`reason` ∈
{dungeon_complete, zone_change, timeout}). -/
structure DungeonEndOut where
  reason : String
  dungeon_name : Option String
  dungeon_level : Option Int
  is_success : Bool
  timestamp : String
deriving DecidableEq, Repr

/-- `_handle_dungeon_end` (lines 677–732): nothing unless a dungeon is
active; otherwise read the snapshot, compute `is_success` from field 4 when
at least 5 fields are present, emit the transition, spawn the finish thread
and `state.reset()`. -/
def handle_dungeon_end (ev : CombatEvent) (reason : String)
    (s : SessionState) : SessionState × Option DungeonEndOut :=
  if !s.dungeon_active then (s, none)
  else
    let is_success := decide (5 ≤ ev.fields.length) && ev.fields.getD 4 "" = "1"
    (s.reset, some ⟨reason, s.dungeon_name, s.dungeon_level, is_success,
      ev.timestamp⟩)

/-- `_handle_zone_change` (lines 734–755): in an active dungeon, with at
least 3 fields, when the current dungeon name is truthy and not a
case-insensitive substring of the new zone, treat as a dungeon end with
reason `zone_change`. -/
def handle_zone_change (ev : CombatEvent) (s : SessionState) :
    SessionState × Option DungeonEndOut :=
  if !s.dungeon_active then (s, none)
  else if 3 ≤ ev.fields.length then
    let new_zone := ev.fields.getD 2 ""
    match s.dungeon_name with
    | Option.none => (s, none)
    | some dn =>
      if dn ≠ "" ∧
          !listHasSeg (pyLower new_zone).data (pyLower dn).data then
        handle_dungeon_end ev "zone_change" s
      else (s, none)
  else (s, none)

/-- `_handle_dungeon_start` (lines 636–675): ignored while a dungeon is
active; extraction failure drops the event; otherwise `start_dungeon` and the
begin thread (`process_dungeon_start`: gated on `RECORD_MPLUS`, then the
recorder start command; on success `state.start_recording()`). -/
def handle_dungeon_start (cfg : Config) (obsOk : Bool) (now : Nat)
    (s : SessionState) (ev : CombatEvent) : SessionState :=
  if s.dungeon_active then s
  else
    match ev.get_dungeon_info with
    | Option.none => s
    | some di =>
      let s := s.start_dungeon di.dungeon_id di.name di.dungeon_level now
      if cfg.record_mplus && obsOk then s.start_recording now else s

/-- `_handle_encounter_start` over `SessionState` (same body as the
`RecordingState` version; recorder per spec §6). -/
def handle_encounter_start_session (cfg : Config) (obsOk : Bool) (now : Nat)
    (s : SessionState) (ev : CombatEvent) : SessionState :=
  if s.is_recording then s
  else
    match ev.get_boss_info with
    | Option.none => s
    | some bi =>
      let bi := match cfg.boss_name_overrides.lookup bi.boss_id with
        | some n => { bi with name := n }
        | Option.none => bi
      let s := s.start_encounter bi.boss_id bi.name bi.difficulty_id
        bi.instance_id now
      if cfg.is_difficulty_enabled bi.difficulty_id && obsOk then
        s.start_recording now
      else s

/-- `_handle_encounter_end` over `SessionState`. -/
def handle_encounter_end_session (s : SessionState) (_ev : CombatEvent) :
    SessionState :=
  if !s.encounter_active then s else s.reset

/-- One processed line (`process_line`, lines 613–634) over the
dungeon-capable state: validity check, activity refresh in Dungeon mode,
dispatch with dungeons prioritized over encounters.  A step input is
`(now, obsOk, line)`: the wall clock, the recorder's §6 start-command
outcome, and the raw line. -/
def stepLine (cfg : Config) (inp : Nat × Bool × String) (s : SessionState) :
    SessionState :=
  let (now, obsOk, line) := inp
  let ev := parseLine line
  if !ev.is_valid then s
  else
    let s := if s.dungeon_active then s.update_activity now else s
    if ev.is_dungeon_start then handle_dungeon_start cfg obsOk now s ev
    else if ev.is_dungeon_end then
      (handle_dungeon_end ev "dungeon_complete" s).1
    else if ev.is_zone_change then (handle_zone_change ev s).1
    else if ev.is_encounter_start then
      handle_encounter_start_session cfg obsOk now s ev
    else if ev.is_encounter_end then handle_encounter_end_session s ev
    else s

/-- A whole processed event sequence from a given state. -/
def runLines (cfg : Config) (inps : List (Nat × Bool × String))
    (s : SessionState) : SessionState :=
  inps.foldl (fun s i => stepLine cfg i s) s

/-! ## Idle-timeout monitor (combat_parser.py 757–764, 876–889) -/

/-- `f"{x}"` for an optional integer (`None` prints as `"None"`). -/
def pyFormatOptInt : Option Int → String
  | Option.none => "None"
  | some i => toString i

/-- `f"{x}"` for an optional string. -/
def pyFormatOptStr : Option String → String
  | Option.none => "None"
  | some s => s

/-- The synthetic line built by `_handle_dungeon_timeout`:
`f"{now:%H:%M:%S}  CHALLENGE_MODE_END,{dungeon_id},{dungeon_name},0,0"`. -/
def syntheticTimeoutLine (nowStr : String) (s : SessionState) : String :=
  nowStr ++ "  CHALLENGE_MODE_END," ++ pyFormatOptInt s.dungeon_id ++ "," ++
    pyFormatOptStr s.dungeon_name ++ ",0,0"

/-- `_handle_dungeon_timeout` (lines 757–764): re-check `dungeon_active`,
build the synthetic `CHALLENGE_MODE_END` event and feed it to the ordinary
dungeon-end handler with reason `timeout`. -/
def handle_dungeon_timeout (nowStr : String) (s : SessionState) :
    SessionState × Option DungeonEndOut :=
  if !s.dungeon_active then (s, none)
  else handle_dungeon_end (parseLine (syntheticTimeoutLine nowStr s))
    "timeout" s

/-- One tick of `_dungeon_monitor_loop` (lines 876–889): when a dungeon is
active and idle beyond `DUNGEON_TIMEOUT_SECONDS`, trigger the timeout
handler; otherwise no effect.  `nowStr` is `datetime.now().strftime('%H:%M:%S')`. -/
def monitorTick (cfg : Config) (now : Nat) (nowStr : String)
    (s : SessionState) : SessionState × Option DungeonEndOut :=
  if s.dungeon_active then
    if s.is_dungeon_idle now cfg.dungeon_timeout_seconds then
      handle_dungeon_timeout nowStr s
    else (s, none)
  else (s, none)

/-! ## Filesystem model and `RecordingFileManager` (combat_parser.py 203–460)

The recording directory resolved by `get_recording_directory` is modelled as
its listing: a list of file entries.  An entry carries its path, an ordering
key for the modification time, the `strftime("%Y-%m-%d")` / `strftime("%H-%M-%S")`
renderings of that modification time (`datetime.fromtimestamp` composed with
`strftime` is treated as given data of the file), its size, and whether its
size is stable across the `validate_file_stable` interval (the outcome of the
sample–sleep–resample check).  `Path.rename` has POSIX semantics: renaming
onto an existing path silently replaces it (the repository targets Linux). -/

structure FileEntry where
  path : String
  mtime : Nat
  mdate_str : String
  mtime_str : String
  size : Nat
  stable : Bool
deriving DecidableEq, Repr

/-- A directory listing. -/
abbrev RecDir := List FileEntry

def pathExistsIn (fs : RecDir) (p : String) : Bool := fs.any (·.path = p)

/-- `RecordingFileManager.VIDEO_EXTENSIONS`. -/
def videoExtensions : List String :=
  [".mp4", ".mkv", ".flv", ".mov", ".ts", ".m3u8", ".avi", ".wmv"]

/-- The final path component. -/
def fileNameOf (p : String) : String :=
  match (p.data.reverse.findIdx? (· = '/')) with
  | Option.none => p
  | some k => ⟨p.data.drop (p.data.length - k)⟩

/-- The directory part (`Path.parent`); empty when there is no slash
(so that joining the parent back with a name is the identity, as with
`Path('.') / name`). -/
def parentOf (p : String) : String :=
  match (p.data.reverse.findIdx? (· = '/')) with
  | Option.none => ""
  | some k => ⟨p.data.take (p.data.length - k - 1)⟩

/-- `parent / name`. -/
def joinPath (parent name : String) : String :=
  if parent = "" then name else parent ++ "/" ++ name

/-- `Path.suffix`: from the last dot of the file name, provided that dot is
neither leading nor trailing. -/
def pathSuffix (p : String) : String :=
  let n := (fileNameOf p).data
  match n.reverse.findIdx? (· = '.') with
  | Option.none => ""
  | some k =>
    let i := n.length - 1 - k
    if 0 < i ∧ i + 1 < n.length then ⟨n.drop i⟩ else ""

/-- `find_latest_recording` (lines 240–264): the video files of the
directory, most recently modified first on ties keeping the earlier listing
entry (Python `max` keeps the first maximal element). -/
def find_latest_recording (fs : RecDir) : Option FileEntry :=
  match fs.filter (fun e => videoExtensions.contains (pyLower (pathSuffix e.path))) with
  | [] => Option.none
  | e :: es => some (es.foldl (fun a b => if a.mtime < b.mtime then b else a) e)

/-- `validate_file_stable` (lines 266–285): the file exists and its size did
not change across the check interval. -/
def validate_file_stable (fs : RecDir) (e : FileEntry) : Bool :=
  pathExistsIn fs e.path && e.stable

/-- `delete_recording` (lines 361–381): `False` (and no filesystem change)
when the path does not exist, otherwise `unlink` and `True`. -/
def delete_recording (fs : RecDir) (p : String) : Bool × RecDir :=
  if !pathExistsIn fs p then (false, fs)
  else (true, fs.eraseP (fun e => e.path = p))

/-- `_get_difficulty_name` (lines 383–391). -/
def get_difficulty_name (d : Int) : String :=
  if d = 1 then "Normal" else if d = 2 then "Heroic"
  else if d = 3 then "Mythic" else if d = 4 then "Mythic+"
  else if d = 5 then "Timewalking" else if d = 7 then "LFR"
  else if d = 9 then "40Player" else if d = 14 then "Normal"
  else if d = 15 then "Heroic" else if d = 16 then "Mythic"
  else if d = 17 then "LFR" else if d = 23 then "Mythic"
  else if d = 24 then "Timewalking" else if d = 33 then "Timewalking"
  else "Difficulty_" ++ toString d

/-- The `strftime` renderings of the file's modification time used by
`generate_filename`. -/
structure FileTime where
  date_str : String
  time_str : String
deriving DecidableEq, Repr

/-- The subject of a rename, matching the keyword dispatch of
`generate_filename` / `rename_recording`. -/
inductive Subject where
  | boss (bi : BossInfo)
  | dungeon (di : DungeonInfo)
  | generic
deriving DecidableEq, Repr

/-- `generate_filename` (lines 287–324). -/
def generate_filename (cfg : Config) (subj : Subject) (t : FileTime) :
    String :=
  match subj with
  | .boss bi =>
    t.date_str ++ "_" ++ t.time_str ++ "_" ++ formattedName bi.name ++ "_" ++
      get_difficulty_name bi.difficulty_id ++ cfg.recording_extension
  | .dungeon di =>
    t.date_str ++ "_" ++ t.time_str ++ "_" ++ formattedDungeonName di.name ++
      "_M+" ++ toString di.dungeon_level ++ cfg.recording_extension
  | .generic =>
    t.date_str ++ "_" ++ t.time_str ++ "_Recording" ++
      cfg.recording_extension

/-- One collision-loop iteration target for attempt `counter`
(`f"{boss_info.name}_attempt{counter}"` re-run through
`generate_filename`). -/
def attemptTarget (cfg : Config) (parent : String) (subj : Subject)
    (t : FileTime) (counter : Nat) : String :=
  match subj with
  | .boss bi =>
    joinPath parent (generate_filename cfg
      (.boss { bi with name := bi.name ++ "_attempt" ++ toString counter }) t)
  | .dungeon di =>
    joinPath parent (generate_filename cfg
      (.dungeon { di with name := di.name ++ "_attempt" ++ toString counter }) t)
  | .generic =>
    joinPath parent (t.date_str ++ "_" ++ t.time_str ++ "_Recording_" ++
      toString counter ++ cfg.recording_extension)

/-- The `while path.exists() and counter <= MAX_RENAME_ATTEMPTS` loop shared
by `_handle_duplicate_filename` / `_handle_duplicate_dungeon_filename` /
`_handle_duplicate_generic_filename`.  The loop body runs at most
`MAX_RENAME_ATTEMPTS` times (`counter` grows from 1 past the bound), so fuel
`MAX_RENAME_ATTEMPTS + 1` reproduces it exactly. -/
def dupLoop (cfg : Config) (fs : RecDir) (parent : String) (subj : Subject)
    (t : FileTime) : Nat → Nat → String → String
  | 0, _, path => path
  | fuel + 1, counter, path =>
    if pathExistsIn fs path && counter ≤ cfg.max_rename_attempts then
      dupLoop cfg fs parent subj t fuel (counter + 1)
        (attemptTarget cfg parent subj t counter)
    else path

/-- `_handle_duplicate_filename` (lines 393–418) and its dungeon/generic
twins: run the collision loop from the computed target; if the final
candidate still exists, fall back to the original pre-attempt path. -/
def handle_duplicate_filename (cfg : Config) (fs : RecDir) (path : String)
    (subj : Subject) (t : FileTime) : String :=
  let fin := dupLoop cfg fs (parentOf path) subj t
    (cfg.max_rename_attempts + 1) 1 path
  if pathExistsIn fs fin then path else fin

/-- `rename_recording` (lines 326–359): compute the target from the file's
own modification time, run collision handling, then `Path.rename` (POSIX:
silently replaces an existing target).  `None` when the source vanished
(`stat` raising is caught). -/
def rename_recording (cfg : Config) (fs : RecDir) (recPath : String)
    (subj : Subject) : Option String × RecDir :=
  match fs.find? (fun e => e.path = recPath) with
  | Option.none => (Option.none, fs)
  | some e =>
    let t : FileTime := ⟨e.mdate_str, e.mtime_str⟩
    let base := joinPath (parentOf recPath) (generate_filename cfg subj t)
    let target := handle_duplicate_filename cfg fs base subj t
    (some target,
     fs.filterMap (fun f =>
       if f.path = recPath then some { f with path := target }
       else if f.path = target then Option.none
       else some f))

/-! ## `RecordingProcessor` finish pipeline (combat_parser.py 543–584) -/

/-- `_handle_short_recording` (lines 572–584). -/
def handle_short_recording (cfg : Config) (fs : RecDir) : Bool × RecDir :=
  if !cfg.delete_short_recordings then (true, fs)
  else
    match find_latest_recording fs with
    | some e => delete_recording fs e.path
    | Option.none => (false, fs)

/-- `_process_recording_file` (lines 543–570). -/
def process_recording_file (cfg : Config) (fs : RecDir) (subj : Subject)
    (recording_duration : Nat) : Bool × RecDir :=
  if recording_duration < cfg.min_recording_duration then
    handle_short_recording cfg fs
  else
    match find_latest_recording fs with
    | Option.none => (false, fs)
    | some e =>
      if !validate_file_stable fs e then (false, fs)
      else
        match rename_recording cfg fs e.path subj with
        | (some _, fs') => (true, fs')
        | (Option.none, fs') => (false, fs')

/-! ## Operation sequences on `RecordingState` -/

/-- The mutating operations of `state_manager.RecordingState` besides
`reset`. -/
inductive EncOp where
  | startEnc (bid : Int) (bname : String) (did iid : Int) (now : Nat)
  | startRec (now : Nat)
deriving DecidableEq, Repr

def applyEncOp (s : RecordingState) : EncOp → RecordingState
  | .startEnc bid bname did iid now =>
    s.start_encounter bid bname did iid now
  | .startRec now => s.start_recording now

def applyEncOps (s : RecordingState) (ops : List EncOp) : RecordingState :=
  ops.foldl applyEncOp s

/-- The second spec invariant as a Boolean observation on session states:
`recording = true` only with an encounter or a dungeon active
(`recording=true` never in Idle mode). -/
def recImpliesActive (s : SessionState) : Bool :=
  !s.recording || s.encounter_active || s.dungeon_active

/-! ## Concrete test vectors -/

/-- The spec's scenario-A encounter-start line. -/
def lineEncA : String := "10:15:00  ENCOUNTER_START,1234,\"Test Boss\",3,5,2000"

/-- An encounter-start line at an enabled (Normal, id 14) difficulty. -/
def lineEnc14 : String := "10:00:00  ENCOUNTER_START,1234,\"Test Boss\",14,5,2000"

/-- A dungeon-start line (scenario-B payload with a timestamp prefix). -/
def lineDunB : String := "10:00:05  CHALLENGE_MODE_START,\"Tazavesh\",2441,391,14"

/-- Recorder environment: connected, no recording active, start command
succeeds. -/
def obsEnvOk : ObsEnv := ⟨true, false, true⟩

def bossNormal : BossInfo := ⟨1234, "Test Boss", 14, 5, ""⟩

/-- A session state inside a dungeon run started at tick 0. -/
def sessionInDungeon : SessionState :=
  SessionState.idle.start_dungeon 2441 "Tazavesh" 14 0

/-- Configuration with `max_rename_attempts = 2` (the collision bound is
operator-configured). -/
def cfgMax2 : Config := { defaultConfig with max_rename_attempts := 2 }

def bossCollide : BossInfo := ⟨1234, "Boss", 14, 5, ""⟩

/-- The computed base target and the attempt-1/2 targets for `bossCollide`
with modification time 2024-01-01 10-00-00 under `cfgMax2`. -/
def baseTarget : String := "rec/2024-01-01_10-00-00_Boss_Normal.mp4"

def attempt1Target : String :=
  "rec/2024-01-01_10-00-00_Boss_attempt1_Normal.mp4"

def attempt2Target : String :=
  "rec/2024-01-01_10-00-00_Boss_attempt2_Normal.mp4"

/-- The just-produced recording, before rename. -/
def producedEntry : FileEntry :=
  ⟨"rec/old.mp4", 100, "2024-01-01", "10-00-00", 5, true⟩

def baseEntry : FileEntry := ⟨baseTarget, 50, "2024-01-01", "09-00-00", 7, true⟩

def attempt1Entry : FileEntry :=
  ⟨attempt1Target, 51, "2024-01-01", "09-10-00", 7, true⟩

def attempt2Entry : FileEntry :=
  ⟨attempt2Target, 52, "2024-01-01", "09-20-00", 7, true⟩

/-- Listing in which the base target and every attempt name through the
configured maximum (2) already exist. -/
def fsExhausted : RecDir :=
  [producedEntry, baseEntry, attempt1Entry, attempt2Entry]

/-- A two-file listing for the short-recording and delete tests. -/
def fsTwo : RecDir :=
  [⟨"rec/a.mp4", 10, "2024-01-01", "08-00-00", 3, true⟩,
   ⟨"rec/b.mp4", 20, "2024-01-01", "08-30-00", 4, true⟩]

/-- The modification-time renderings of `producedEntry`. -/
def collideTime : FileTime := ⟨"2024-01-01", "10-00-00"⟩

/-- Listing in which the base target and attempt 1 exist but attempt 2 is
free (`k = 1` below the maximum 2). -/
def fsUpToAttempt1 : RecDir := [producedEntry, baseEntry, attempt1Entry]

/-! ## Helper lemmas -/

theorem mem_pyStripList {c : Char} {l : List Char} (h : c ∈ pyStripList l) :
    c ∈ l := by
  unfold pyStripList at h
  rw [List.mem_reverse] at h
  have h1 := (List.dropWhile_sublist (l := (l.dropWhile isPySpace).reverse)
    (p := isPySpace)).subset h
  rw [List.mem_reverse] at h1
  exact (List.dropWhile_sublist (l := l) (p := isPySpace)).subset h1

theorem count_dropWhile_of_not {c : Char} {p : Char → Bool}
    (hc : p c = false) : ∀ l : List Char,
    (l.dropWhile p).count c = l.count c := by
  intro l
  induction l with
  | nil => rfl
  | cons a l ih =>
    by_cases ha : p a
    · have hne : a ≠ c := fun h => by rw [h, hc] at ha; exact absurd ha (by simp)
      rw [List.dropWhile_cons_of_pos ha, ih,
        List.count_cons_of_ne (fun h => hne h.symm)]
    · rw [List.dropWhile_cons_of_neg ha]

theorem count_pyStripList {c : Char} (hc : isPySpace c = false)
    (l : List Char) : (pyStripList l).count c = l.count c := by
  unfold pyStripList
  rw [List.count_reverse, count_dropWhile_of_not hc, List.count_reverse,
    count_dropWhile_of_not hc]

theorem segIn_reverse {r l : List Char} (h : SegIn r l) :
    SegIn r.reverse l.reverse := by
  obtain ⟨u, v, rfl⟩ := h
  exact ⟨v.reverse, u.reverse, by simp⟩

theorem segIn_dropWhile {p : Char → Bool} {r l : List Char}
    (hr : ∀ c ∈ r, p c = false) (h : SegIn r l) :
    SegIn r (l.dropWhile p) := by
  obtain ⟨u, v, rfl⟩ := h
  induction u with
  | nil =>
    cases r with
    | nil => exact ⟨[], ([] ++ v).dropWhile p, by simp⟩
    | cons a r' =>
      rw [List.nil_append, List.cons_append,
        List.dropWhile_cons_of_neg (by simp [hr a (by simp)])]
      exact ⟨[], v, by simp⟩
  | cons b u' ih =>
    have hshape : (b :: u') ++ r ++ v = b :: (u' ++ r ++ v) := by simp
    rw [hshape]
    by_cases hb : p b
    · rw [List.dropWhile_cons_of_pos hb]
      exact ih
    · rw [List.dropWhile_cons_of_neg hb]
      exact ⟨b :: u', v, by simp⟩

theorem segIn_pyStripList {r l : List Char}
    (hr : ∀ c ∈ r, isPySpace c = false) (h : SegIn r l) :
    SegIn r (pyStripList l) := by
  unfold pyStripList
  have h1 := segIn_dropWhile hr h
  have h2 := segIn_reverse h1
  have h3 := segIn_dropWhile (p := isPySpace)
    (fun c hc => hr c (List.mem_reverse.mp hc)) h2
  have h4 := segIn_reverse h3
  rwa [List.reverse_reverse] at h4

theorem segIn_filter {p : Char → Bool} {r l : List Char} (h : SegIn r l) :
    SegIn (r.filter p) (l.filter p) := by
  obtain ⟨u, v, rfl⟩ := h
  exact ⟨u.filter p, v.filter p, by simp⟩

theorem segIn_map {f : Char → Char} {r l : List Char} (h : SegIn r l) :
    SegIn (r.map f) (l.map f) := by
  obtain ⟨u, v, rfl⟩ := h
  exact ⟨u.map f, v.map f, by simp⟩

theorem map_id_of_mem {f : Char → Char} {r : List Char}
    (h : ∀ c ∈ r, f c = c) : r.map f = r := by
  induction r with
  | nil => rfl
  | cons a r ih =>
    rw [List.map_cons, h a (by simp), ih (fun c hc => h c (by simp [hc]))]

theorem alnum_not_bad {c : Char} (h : c.isAlphanum = true) :
    badChars.contains c = false := by
  cases hm : badChars.contains c
  · rfl
  · have hmem : c ∈ badChars := by
      simpa [List.contains_iff_exists_mem_beq, beq_iff_eq] using hm
    simp only [badChars, dquote, List.mem_cons, List.not_mem_nil,
      or_false] at hmem
    rcases hmem with hc | hc | hc | hc | hc | hc | hc | hc | hc <;>
      subst hc <;> exact absurd h (by decide)

theorem alnum_ne {c c' : Char} (h : c.isAlphanum = true)
    (h' : c'.isAlphanum = false) : c ≠ c' := by
  intro hc
  rw [hc, h'] at h
  exact absurd h (by simp)

theorem alnum_not_pyspace {c : Char} (h : c.isAlphanum = true) :
    isPySpace c = false := by
  have h1 : c ≠ ' ' := fun hc => by subst hc; exact absurd h (by decide)
  have h2 : c ≠ '\t' := fun hc => by subst hc; exact absurd h (by decide)
  have h3 : c ≠ '\n' := fun hc => by subst hc; exact absurd h (by decide)
  have h4 : c ≠ '\r' := fun hc => by subst hc; exact absurd h (by decide)
  have h5 : c ≠ '\x0b' := fun hc => by subst hc; exact absurd h (by decide)
  have h6 : c ≠ '\x0c' := fun hc => by subst hc; exact absurd h (by decide)
  unfold isPySpace
  rw [decide_eq_false h1, decide_eq_false h2, decide_eq_false h3,
    decide_eq_false h4, decide_eq_false h5, decide_eq_false h6]
  rfl

/-! ## C9 — reset is the fresh state -/

/-- C9: after any sequence of `start_encounter`/`start_recording`
operations, `reset()` yields exactly the freshly constructed state (all
fields at their `_reset_all` defaults); `reset` is idempotent and `reset`
right after construction is a no-op. -/
theorem reset_returns_fresh_state :
    (∀ ops : List EncOp,
      (applyEncOps RecordingState.mkFresh ops).reset =
        ⟨false, none, false, none, none, none, none, none⟩)
    ∧ (∀ s : RecordingState, s.reset.reset = s.reset)
    ∧ RecordingState.mkFresh.reset = RecordingState.mkFresh :=
  ⟨fun _ => rfl, fun _ => rfl, rfl⟩

/-! ## C1 — `process_line` raises on the ingestion path -/

/-- C1 (code bug): `process_line` does **not** return normally on every raw
line.  For the spec's own scenario-A line — a well-formed, valid
`ENCOUNTER_START` event — the query of the session state for dungeon
activity (`if self.state.dungeon_active:`) raises `AttributeError`, for any
configuration, recorder environment and clock, because the
`RecordingState` class shipped in `state_manager.py` (the one
`combat_parser.py` imports) defines no `dungeon_active` attribute. -/
theorem process_line_raises_attribute_error :
    (parseLine lineEncA).is_valid = true ∧
    ∀ (cfg : Config) (env : ObsEnv) (now : Nat),
      process_line cfg env now RecordingState.mkFresh lineEncA =
        .error (.attributeError "dungeon_active") :=
  ⟨rfl, fun _ _ _ => rfl⟩

/-! ## C2 — begin pipeline never flips the recording flag -/

/-- C2 (code bug): with an enabled difficulty (Normal, id 14) and a recorder
environment in which the start command **succeeds**,
`OBSClient.start_recording` returns `None`, so
`RecordingProcessor.process_encounter_start` reports failure (`False`) and
`_process_encounter_start_thread` leaves `recording = false` on every state —
the claim's success branch (`recording` set to true) never happens.  The
failure-branch half of the claim does hold: the flag stays false and a
subsequent encounter end still clears the (active but unrecorded) session. -/
theorem obs_success_never_marks_recording :
    obsStartRecording obsEnvOk = .ok .none ∧
    defaultConfig.is_difficulty_enabled 14 = true ∧
    process_encounter_start defaultConfig obsEnvOk bossNormal = .ok false ∧
    (∀ (now : Nat) (s : RecordingState),
      process_encounter_start_thread defaultConfig obsEnvOk bossNormal now s
        = s) ∧
    handle_encounter_end
      (RecordingState.mkFresh.start_encounter 1234 "Test Boss" 14 5 0)
      (parseLine "10:25:00  ENCOUNTER_END,1234,\"Test Boss\",14,5,1") =
      RecordingState.reset_all :=
  ⟨rfl, rfl, rfl, fun _ _ => rfl, rfl⟩

/-! ## C8 — name sanitization -/

theorem count_filter_keep (p : Char → Bool) (c : Char) (hp : p c = true) :
    ∀ l : List Char, (l.filter p).count c = l.count c := by
  intro l
  induction l with
  | nil => rfl
  | cons a l ih =>
    by_cases ha : p a
    · rw [List.filter_cons_of_pos ha, List.count_cons, List.count_cons, ih]
    · rw [List.filter_cons_of_neg ha, ih, List.count_cons]
      have hac : ¬ a = c := fun h => by subst h; exact ha hp
      simp [hac]

theorem count_underscore_map : ∀ l : List Char,
    (l.map (fun c => if c = ' ' then '_' else c)).count '_' =
      l.count '_' + l.count ' ' := by
  intro l
  induction l with
  | nil => rfl
  | cons a l ih =>
    by_cases hsp : a = ' '
    · subst hsp
      simp only [List.map_cons, if_pos rfl, List.count_cons, ih]
      simp
      omega
    · simp only [List.map_cons, if_neg hsp, List.count_cons, ih]
      by_cases hu : a = '_'
      · subst hu
        simp
        omega
      · simp [hu, hsp]

theorem formattedNameList_eq (l : List Char) :
    formattedNameList l =
      pyStripList ((((l.filter (fun c => !(badChars.contains c))).map
        (fun c => if c = ' ' then '_' else c)).filter
        (fun c => c != apos)).filter (fun c => c != ',')) := rfl

/-- C8: for every boss name, the sanitized name contains none of the
path-hostile characters `<>:"/\|?*`, no apostrophe, no comma and no space;
every space became an underscore (the underscore count of the output is the
underscore count plus the space count of the input); and every alphanumeric
run of the original name still occurs contiguously and unchanged in the
output. -/
theorem formatted_name_sanitized (name : String) :
    (∀ c ∈ (formattedName name).data,
      badChars.contains c = false ∧ c ≠ apos ∧ c ≠ ',' ∧ c ≠ ' ')
    ∧ (formattedName name).data.count '_' =
        name.data.count '_' + name.data.count ' '
    ∧ (∀ r : List Char, SegIn r name.data →
        (∀ c ∈ r, c.isAlphanum = true) → SegIn r (formattedName name).data) := by
  refine ⟨?_, ?_, ?_⟩
  · intro c hc
    have hc4 : c ∈ (((name.data.filter
        (fun c => !(badChars.contains c))).map
        (fun c => if c = ' ' then '_' else c)).filter
        (fun c => c != apos)).filter (fun c => c != ',') := by
      have := hc
      rw [show (formattedName name).data = formattedNameList name.data
        from rfl, formattedNameList_eq] at this
      exact mem_pyStripList this
    simp only [List.mem_filter, List.mem_map, bne_iff_ne] at hc4
    obtain ⟨⟨⟨a, ⟨hal, hbada⟩, hfa⟩, hapos⟩, hcomma⟩ := hc4
    by_cases hsp : a = ' '
    · rw [if_pos hsp] at hfa
      subst hfa
      exact ⟨by decide, by decide, by decide, by decide⟩
    · rw [if_neg hsp] at hfa
      subst hfa
      refine ⟨?_, hapos, hcomma, hsp⟩
      simpa using hbada
  · rw [show (formattedName name).data = formattedNameList name.data
      from rfl, formattedNameList_eq,
      count_pyStripList (by decide),
      count_filter_keep (fun c => c != ',') '_' (by decide),
      count_filter_keep (fun c => c != apos) '_' (by decide),
      count_underscore_map,
      count_filter_keep (fun c => !(badChars.contains c)) '_' (by decide),
      count_filter_keep (fun c => !(badChars.contains c)) ' ' (by decide)]
  · intro r hseg halnum
    have hg : r.filter (fun c => !(badChars.contains c)) = r :=
      List.filter_eq_self.mpr (fun c hc => by
        rw [alnum_not_bad (halnum c hc)]; rfl)
    have hmap : r.map (fun c => if c = ' ' then '_' else c) = r :=
      map_id_of_mem (fun c hc =>
        if_neg (alnum_ne (halnum c hc) (by decide)))
    have hap : r.filter (fun c => c != apos) = r :=
      List.filter_eq_self.mpr (fun c hc => by
        simp [alnum_ne (halnum c hc)
          (show apos.isAlphanum = false by decide)])
    have hcm : r.filter (fun c => c != ',') = r :=
      List.filter_eq_self.mpr (fun c hc => by
        simp [alnum_ne (halnum c hc)
          (show (',' : Char).isAlphanum = false by decide)])
    have s1 : SegIn (r.filter (fun c => !(badChars.contains c)))
        (name.data.filter (fun c => !(badChars.contains c))) :=
      segIn_filter hseg
    rw [hg] at s1
    have s2 : SegIn (r.map (fun c => if c = ' ' then '_' else c))
        ((name.data.filter (fun c => !(badChars.contains c))).map
          (fun c => if c = ' ' then '_' else c)) := segIn_map s1
    rw [hmap] at s2
    have s3 : SegIn (r.filter (fun c => c != apos))
        (((name.data.filter (fun c => !(badChars.contains c))).map
          (fun c => if c = ' ' then '_' else c)).filter
          (fun c => c != apos)) := segIn_filter s2
    rw [hap] at s3
    have s4 : SegIn (r.filter (fun c => c != ','))
        ((((name.data.filter (fun c => !(badChars.contains c))).map
          (fun c => if c = ' ' then '_' else c)).filter
          (fun c => c != apos)).filter (fun c => c != ',')) := segIn_filter s3
    rw [hcm] at s4
    have s5 := segIn_pyStripList
      (fun c hc => alnum_not_pyspace (halnum c hc)) s4
    rw [show (formattedName name).data = formattedNameList name.data
      from rfl, formattedNameList_eq]
    exact s5

/-- C8 witness: the theorem applied at the concrete name
`Kel'Thuzad, the <Arch> Lich` and the alphanumeric run `Thuzad`. -/
theorem formatted_name_sanitized_witness :
    formattedName "Kel'Thuzad, the <Arch> Lich" =
      "KelThuzad_the_Arch_Lich" ∧
    SegIn "Thuzad".data (formattedName "Kel'Thuzad, the <Arch> Lich").data :=
  ⟨rfl,
    (formatted_name_sanitized "Kel'Thuzad, the <Arch> Lich").2.2
      "Thuzad".data ⟨"Kel'".data, ", the <Arch> Lich".data, by decide⟩
      (by decide)⟩

/-! ## C3 — state-machine safety -/

/-- C3 counterexample: from the fresh state, an `ENCOUNTER_START` at an
enabled difficulty followed by a `CHALLENGE_MODE_START` leaves **both** an
encounter and a dungeon active at once: `_handle_dungeon_start` ignores a
start only while a *dungeon* is active, and `_handle_encounter_start` only
while `is_recording` (= `recording and encounter_active`) — neither guard
sees the other mode. -/
theorem encounter_and_dungeon_simultaneously_active :
    (runLines defaultConfig [(0, true, lineEnc14), (5, true, lineDunB)]
      SessionState.idle).encounter_active = true ∧
    (runLines defaultConfig [(0, true, lineEnc14), (5, true, lineDunB)]
      SessionState.idle).dungeon_active = true :=
  ⟨rfl, rfl⟩

theorem recImpliesActive_idle : recImpliesActive SessionState.idle = true :=
  rfl

theorem recImpliesActive_start_recording {s : SessionState} (now : Nat)
    (h : s.encounter_active = true ∨ s.dungeon_active = true) :
    recImpliesActive (s.start_recording now) = true := by
  unfold recImpliesActive SessionState.start_recording
  rcases h with h | h <;> simp [h]

theorem recImpliesActive_handle_dungeon_end (ev : CombatEvent)
    (reason : String) (s : SessionState)
    (h : recImpliesActive s = true) :
    recImpliesActive (handle_dungeon_end ev reason s).1 = true := by
  unfold handle_dungeon_end
  by_cases hd : s.dungeon_active <;> simp [hd, h, SessionState.reset]
  exact recImpliesActive_idle

theorem recImpliesActive_handle_zone_change (ev : CombatEvent)
    (s : SessionState) (h : recImpliesActive s = true) :
    recImpliesActive (handle_zone_change ev s).1 = true := by
  unfold handle_zone_change
  split
  · exact h
  split
  · split
    · exact h
    · dsimp only
      split
      · exact recImpliesActive_handle_dungeon_end _ _ _ h
      · exact h
  · exact h

theorem recImpliesActive_handle_dungeon_start (cfg : Config) (obsOk : Bool)
    (now : Nat) (s : SessionState) (ev : CombatEvent)
    (h : recImpliesActive s = true) :
    recImpliesActive (handle_dungeon_start cfg obsOk now s ev) = true := by
  unfold handle_dungeon_start
  split
  · exact h
  split
  · exact h
  · split
    · exact recImpliesActive_start_recording now (Or.inr rfl)
    · simp [recImpliesActive, SessionState.start_dungeon]

theorem recImpliesActive_handle_encounter_start (cfg : Config)
    (obsOk : Bool) (now : Nat) (s : SessionState) (ev : CombatEvent)
    (h : recImpliesActive s = true) :
    recImpliesActive (handle_encounter_start_session cfg obsOk now s ev)
      = true := by
  unfold handle_encounter_start_session
  split
  · exact h
  split
  · exact h
  · split <;> dsimp only <;> split <;>
      simp [recImpliesActive, SessionState.start_recording,
        SessionState.start_encounter]

theorem recImpliesActive_handle_encounter_end (s : SessionState)
    (ev : CombatEvent) (h : recImpliesActive s = true) :
    recImpliesActive (handle_encounter_end_session s ev) = true := by
  unfold handle_encounter_end_session
  split
  · exact h
  · exact recImpliesActive_idle

theorem recImpliesActive_update_activity (s : SessionState) (now : Nat) :
    recImpliesActive (s.update_activity now) = recImpliesActive s := rfl

theorem recImpliesActive_stepLine (cfg : Config)
    (inp : Nat × Bool × String) (s : SessionState)
    (h : recImpliesActive s = true) :
    recImpliesActive (stepLine cfg inp s) = true := by
  obtain ⟨now, obsOk, line⟩ := inp
  unfold stepLine
  simp only
  have h' : recImpliesActive
      (if (parseLine line).is_valid = false then s
        else if s.dungeon_active then s.update_activity now else s) = true := by
    split
    · exact h
    split
    · rw [recImpliesActive_update_activity]; exact h
    · exact h
  split
  · exact h
  split
  · apply recImpliesActive_handle_dungeon_start
    split
    · rw [recImpliesActive_update_activity]; exact h
    · exact h
  split
  · apply recImpliesActive_handle_dungeon_end
    split
    · rw [recImpliesActive_update_activity]; exact h
    · exact h
  split
  · apply recImpliesActive_handle_zone_change
    split
    · rw [recImpliesActive_update_activity]; exact h
    · exact h
  split
  · apply recImpliesActive_handle_encounter_start
    split
    · rw [recImpliesActive_update_activity]; exact h
    · exact h
  split
  · apply recImpliesActive_handle_encounter_end
    split
    · rw [recImpliesActive_update_activity]; exact h
    · exact h
  · split
    · rw [recImpliesActive_update_activity]; exact h
    · exact h

/-- C3 amended: the second half of the invariant does hold — along every
processed event sequence from the fresh state, for every configuration and
recorder behaviour, `recording = true` only while an encounter or a dungeon
is active (never in Idle mode).  (The first half — mutual exclusion of
Encounter and Dungeon — fails; see the counterexample.) -/
theorem recording_implies_active_mode (cfg : Config)
    (inps : List (Nat × Bool × String)) :
    recImpliesActive (runLines cfg inps SessionState.idle) = true := by
  suffices h : ∀ (is : List (Nat × Bool × String)) (s : SessionState),
      recImpliesActive s = true → recImpliesActive (runLines cfg is s) = true by
    exact h inps SessionState.idle recImpliesActive_idle
  intro is
  induction is with
  | nil => intro s h; exact h
  | cons i is ih =>
    intro s h
    exact ih (stepLine cfg i s) (recImpliesActive_stepLine cfg i s h)

/-! ## C4 — encounter-start extraction -/

/-- C4: for every parsed `ENCOUNTER_START` event with at least 6 fields, if
fields 1, 3 and 5 parse as Python integers then extraction yields exactly
`BossInfo(int(fields[1]), fields[2], int(fields[3]), int(fields[5]))` (with
the event's timestamp); if any of them is malformed, extraction yields
nothing and the encounter-start handler leaves every state unchanged (for
every configuration, recorder environment and clock). -/
theorem get_boss_info_extraction (ev : CombatEvent)
    (h1 : ev.is_encounter_start = true) (h2 : 6 ≤ ev.fields.length) :
    (∀ a d i : Int,
      pyInt (ev.fields.getD 1 "") = some a →
      pyInt (ev.fields.getD 3 "") = some d →
      pyInt (ev.fields.getD 5 "") = some i →
      ev.get_boss_info =
        some ⟨a, ev.fields.getD 2 "", d, i, ev.timestamp⟩)
    ∧ ((pyInt (ev.fields.getD 1 "") = none ∨
        pyInt (ev.fields.getD 3 "") = none ∨
        pyInt (ev.fields.getD 5 "") = none) →
      ev.get_boss_info = none ∧
      ∀ (cfg : Config) (env : ObsEnv) (now : Nat) (s : RecordingState),
        handle_encounter_start cfg env now s ev = s) := by
  have hlt : ¬ ev.fields.length < 6 := Nat.not_lt.mpr h2
  constructor
  · intro a d i ha hd hi
    unfold CombatEvent.get_boss_info
    rw [h1, ha, hd, hi]
    simp [hlt]
  · intro hfail
    have hnone : ev.get_boss_info = none := by
      unfold CombatEvent.get_boss_info
      rw [h1]
      simp only [Bool.not_true, Bool.false_or, decide_eq_true_eq, if_neg hlt]
      rcases hfail with ha | hd | hi
      · rw [ha]
      · rw [hd]
        cases pyInt (ev.fields.getD 1 "") <;> rfl
      · rw [hi]
        cases pyInt (ev.fields.getD 1 "") <;> try rfl
        cases pyInt (ev.fields.getD 3 "") <;> rfl
    refine ⟨hnone, ?_⟩
    intro cfg env now s
    unfold handle_encounter_start
    rw [hnone]
    split <;> rfl

/-- C4 witness: the theorem applied at the parse of the spec's scenario-A
line. -/
theorem get_boss_info_extraction_witness :
    (parseLine lineEncA).get_boss_info =
      some ⟨1234, "Test Boss", 3, 2000, "10:15:00"⟩ :=
  (get_boss_info_extraction (parseLine lineEncA) rfl (by decide)).1
    1234 3 2000 rfl rfl rfl

/-! ## C5 — idle-timeout monitor tick -/

/-- C5 (spec-modelled session state): whenever a dungeon is active and the
time since the last qualifying activity exceeds the configured threshold, a
single monitor tick feeds a synthetic `CHALLENGE_MODE_END` event through the
very same dungeon-end transition (`handle_dungeon_end`) used by a normal
dungeon end, with reason `timeout`; the transition fires (a dungeon-end
notification with reason `timeout` is produced) and the state returns to
Idle. -/
theorem monitor_tick_timeout (cfg : Config) (now : Nat) (nowStr : String)
    (s : SessionState) (h1 : s.dungeon_active = true)
    (h2 : s.is_dungeon_idle now cfg.dungeon_timeout_seconds = true) :
    monitorTick cfg now nowStr s =
      handle_dungeon_end (parseLine (syntheticTimeoutLine nowStr s))
        "timeout" s
    ∧ (monitorTick cfg now nowStr s).1 = SessionState.idle
    ∧ ∃ out, (monitorTick cfg now nowStr s).2 = some out ∧
        out.reason = "timeout" := by
  have heq : monitorTick cfg now nowStr s =
      handle_dungeon_end (parseLine (syntheticTimeoutLine nowStr s))
        "timeout" s := by
    unfold monitorTick handle_dungeon_timeout
    rw [h1, h2]
    simp [h1]
  refine ⟨heq, ?_, ?_⟩ <;> rw [heq] <;> unfold handle_dungeon_end <;>
    simp [h1, SessionState.reset]

/-- C5 witness: the theorem applied to a session whose dungeon started (and
last saw activity) at tick 0, with the default 300 s threshold, at tick
1000. -/
theorem monitor_tick_timeout_witness :
    (monitorTick defaultConfig 1000 "10:20:00" sessionInDungeon).1 =
      SessionState.idle
    ∧ ∃ out,
        (monitorTick defaultConfig 1000 "10:20:00" sessionInDungeon).2 =
          some out ∧ out.reason = "timeout" :=
  ⟨(monitor_tick_timeout defaultConfig 1000 "10:20:00" sessionInDungeon
      rfl rfl).2.1,
   (monitor_tick_timeout defaultConfig 1000 "10:20:00" sessionInDungeon
      rfl rfl).2.2⟩

/-! ## C6 — rename collision policy -/

/-- C6 (code bug): with `max_rename_attempts = 2`, when the base target and
attempt 1 exist but attempt 2 is free, the collision policy returns the
attempt-2 path (the claim's first half, at `k = 1`).  But when the base
target and **every** attempt name through the maximum exist, the policy
returns the original pre-attempt path — which is an *existing* file — and
`rename_recording` then proceeds to rename the recording onto it: POSIX
`rename` silently **replaces** the file already there, and the recording
loses its original filename.  The rename is not abandoned and nothing is
left untouched, contradicting the claim (and the code's own
"keeping: ..." log message). -/
theorem collision_exhaustion_overwrites :
    handle_duplicate_filename cfgMax2 fsUpToAttempt1 baseTarget
      (.boss bossCollide) collideTime = attempt2Target
    ∧ handle_duplicate_filename cfgMax2 fsExhausted baseTarget
      (.boss bossCollide) collideTime = baseTarget
    ∧ rename_recording cfgMax2 fsExhausted "rec/old.mp4"
        (.boss bossCollide) =
      (some baseTarget,
       [{ producedEntry with path := baseTarget }, attempt1Entry,
        attempt2Entry])
    ∧ pathExistsIn (rename_recording cfgMax2 fsExhausted "rec/old.mp4"
        (.boss bossCollide)).2 "rec/old.mp4" = false :=
  ⟨rfl, rfl, rfl, rfl⟩

/-! ## C7 — short-recording policy -/

theorem foldl_latest_mem : ∀ (es : List FileEntry) (a : FileEntry),
    es.foldl (fun x b => if x.mtime < b.mtime then b else x) a ∈ a :: es := by
  intro es
  induction es with
  | nil => intro a; exact List.mem_cons_self a []
  | cons b bs ih =>
    intro a
    rw [List.foldl_cons]
    rcases List.mem_cons.mp (ih (if a.mtime < b.mtime then b else a)) with
      hm | hm
    · rw [hm]
      split
      · exact List.mem_cons_of_mem _ (List.mem_cons_self b bs)
      · exact List.mem_cons_self a (b :: bs)
    · exact List.mem_cons_of_mem _ (List.mem_cons_of_mem _ hm)

theorem find_latest_recording_mem {fs : RecDir} {e : FileEntry}
    (h : find_latest_recording fs = some e) : e ∈ fs := by
  unfold find_latest_recording at h
  revert h
  cases hf : fs.filter
      (fun e => videoExtensions.contains (pyLower (pathSuffix e.path))) with
  | nil => intro h; cases h
  | cons a as =>
    intro h
    have he : e ∈ a :: as := by
      rw [show e = as.foldl (fun x b => if x.mtime < b.mtime then b else x) a
        from (Option.some.injEq _ _).mp h.symm]
      exact foldl_latest_mem as a
    have : e ∈ fs.filter
        (fun e => videoExtensions.contains (pyLower (pathSuffix e.path))) := by
      rw [hf]; exact he
    exact List.mem_of_mem_filter this

/-- C7: when the elapsed duration is below the configured minimum, the
finish pipeline runs exactly the short-recording policy and attempts no
rename (no entry of the resulting directory is new); with
`delete_short_recordings` disabled it leaves the directory untouched and
reports success; with it enabled it deletes precisely the most recent
recording and reports success. -/
theorem short_recording_policy (cfg : Config) (fs : RecDir)
    (subj : Subject) (dur : Nat) (h : dur < cfg.min_recording_duration) :
    process_recording_file cfg fs subj dur = handle_short_recording cfg fs
    ∧ (∀ e ∈ (process_recording_file cfg fs subj dur).2, e ∈ fs)
    ∧ (cfg.delete_short_recordings = false →
        process_recording_file cfg fs subj dur = (true, fs))
    ∧ (cfg.delete_short_recordings = true →
        ∀ e : FileEntry, find_latest_recording fs = some e →
          process_recording_file cfg fs subj dur =
            (true, fs.eraseP (fun f => f.path = e.path))) := by
  have h0 : process_recording_file cfg fs subj dur =
      handle_short_recording cfg fs := by
    unfold process_recording_file
    rw [if_pos h]
  refine ⟨h0, ?_, ?_, ?_⟩
  · rw [h0]
    unfold handle_short_recording
    split
    · exact fun e he => he
    · split
      · unfold delete_recording
        split
        · exact fun e he => he
        · exact fun e he => (List.eraseP_sublist _).subset he
      · exact fun e he => he
  · intro hflag
    rw [h0]
    unfold handle_short_recording
    rw [hflag]
    rfl
  · intro hflag e hfind
    have hex : pathExistsIn fs e.path = true := by
      unfold pathExistsIn
      exact List.any_eq_true.mpr ⟨e, find_latest_recording_mem hfind,
        by simp⟩
    rw [h0]
    unfold handle_short_recording
    rw [hflag, hfind]
    simp [delete_recording, hex]

/-- C7 witness: the theorem applied with elapsed duration 2 s against the
default 5 s minimum, deleting the most recent video of a two-file
directory. -/
theorem short_recording_policy_witness :
    (2 : Nat) < defaultConfig.min_recording_duration
    ∧ process_recording_file defaultConfig fsTwo .generic 2 =
        (true, fsTwo.eraseP (fun f => f.path = "rec/b.mp4")) :=
  ⟨by decide,
   (short_recording_policy defaultConfig fsTwo .generic 2 (by decide)).2.2.2
     rfl ⟨"rec/b.mp4", 20, "2024-01-01", "08-30-00", 4, true⟩ rfl⟩

/-! ## C10 — `delete_recording` -/

theorem pathExistsIn_iff {fs : RecDir} {p : String} :
    pathExistsIn fs p = true ↔ p ∈ fs.map FileEntry.path := by
  unfold pathExistsIn
  rw [List.any_eq_true]
  simp only [List.mem_map, decide_eq_true_eq]

theorem mem_eraseP_of_ne {fs : RecDir} {p : String} {e : FileEntry}
    (he : e ∈ fs) (hne : e.path ≠ p) :
    e ∈ fs.eraseP (fun f => f.path = p) := by
  induction fs with
  | nil => cases he
  | cons a fs ih =>
    by_cases ha : a.path = p
    · rw [List.eraseP_cons_of_pos (by simp [ha])]
      rcases List.mem_cons.mp he with rfl | hm
      · exact absurd ha hne
      · exact hm
    · rw [List.eraseP_cons_of_neg (by simp [ha])]
      rcases List.mem_cons.mp he with rfl | hm
      · exact List.mem_cons_self _ _
      · exact List.mem_cons_of_mem _ (ih hm)

theorem pathExistsIn_eraseP_self {fs : RecDir} {p : String}
    (hnd : (fs.map FileEntry.path).Nodup) :
    pathExistsIn (fs.eraseP (fun f => f.path = p)) p = false := by
  induction fs with
  | nil => rfl
  | cons a fs ih =>
    rw [List.map_cons, List.nodup_cons] at hnd
    by_cases ha : a.path = p
    · rw [List.eraseP_cons_of_pos (by simp [ha])]
      cases hex : pathExistsIn fs p
      · rfl
      · exact absurd (ha ▸ pathExistsIn_iff.mp hex) hnd.1
    · rw [List.eraseP_cons_of_neg (by simp [ha])]
      unfold pathExistsIn
      rw [List.any_cons]
      have h1 : (decide (a.path = p)) = false := by simp [ha]
      rw [h1, Bool.false_or]
      exact ih hnd.2

/-- C10: `delete_recording` on a path that does not exist returns `False`
and leaves the directory unchanged (no exception: the missing-path case is
the guarded early return); on an existing path (in a directory of distinct
paths) it returns `True` and removes exactly that file — the path is gone,
every other entry survives, and nothing new appears. -/
theorem delete_recording_behaviour (fs : RecDir) (p : String)
    (hnd : (fs.map FileEntry.path).Nodup) :
    (pathExistsIn fs p = false → delete_recording fs p = (false, fs))
    ∧ (pathExistsIn fs p = true →
        (delete_recording fs p).1 = true
        ∧ (delete_recording fs p).2 = fs.eraseP (fun f => f.path = p)
        ∧ pathExistsIn (delete_recording fs p).2 p = false
        ∧ (∀ e ∈ fs, e.path ≠ p → e ∈ (delete_recording fs p).2)
        ∧ (∀ e ∈ (delete_recording fs p).2, e ∈ fs)) := by
  constructor
  · intro hex
    unfold delete_recording
    rw [hex]
    rfl
  · intro hex
    have hd : delete_recording fs p =
        (true, fs.eraseP (fun f => f.path = p)) := by
      unfold delete_recording
      rw [hex]
      rfl
    rw [hd]
    exact ⟨rfl, rfl, pathExistsIn_eraseP_self hnd,
      fun e he hne => mem_eraseP_of_ne he hne,
      fun e he => (List.eraseP_sublist _).subset he⟩

/-- C10 witness: the theorem applied to a two-file directory, at a missing
path and at an existing one. -/
theorem delete_recording_behaviour_witness :
    delete_recording fsTwo "rec/none.mp4" = (false, fsTwo)
    ∧ (delete_recording fsTwo "rec/a.mp4").1 = true
    ∧ pathExistsIn (delete_recording fsTwo "rec/a.mp4").2 "rec/a.mp4"
        = false :=
  ⟨(delete_recording_behaviour fsTwo "rec/none.mp4" (by decide)).1 rfl,
   ((delete_recording_behaviour fsTwo "rec/a.mp4" (by decide)).2 rfl).1,
   ((delete_recording_behaviour fsTwo "rec/a.mp4" (by decide)).2
     rfl).2.2.1⟩

end WowRec







